import Mathlib

/-!
# Verification of the SOC-Sentinel anomaly scoring and explainability engine

This file gives a shallow embedding, in Lean 4, of the core of the
`soc-sentinel` repository: the anomaly scorer (`src/models/anomaly_detector.py`),
the ensemble blender, the severity classifier, the normalization / feature
pipelines (`src/ml/preprocessing.py`, `src/features/feature_pipeline.py`) and
the explainer's fallback path (`src/explainability/explainer.py`).

Numeric values computed by the Python code with floats are modelled as exact
rationals `ℚ` (or reals `ℝ` where the code takes square roots); machine
rounding is not modelled.  Python dictionaries are modelled as association
lists `List (String × DVal)` so that the presence or absence of a key in a
result record is expressible.  Calls into scikit-learn on a *fitted* model
(`IsolationForest.score_samples`, `IsolationForest.predict`,
`RandomForestClassifier.predict_proba`) are modelled by an abstract fitted
model carrying the functions the repository's code consumes:

* `score_samples : vector → ℚ` — the raw isolation score of one vector;
* `offset : ℚ` — the contamination-implied cutoff frozen at fit time;
  scikit-learn's `IsolationForest.predict` returns `-1` (anomaly) exactly
  when `score_samples x - offset_ < 0`, which is what `ifTreePredict` states.
-/

/-- A value stored in one of the Python result dictionaries:
a bool, a number, a string, or a feature-name-keyed collection of numbers
(a Python dict or list of pairs, in insertion order). -/
inductive DVal where
  | b : Bool → DVal
  | q : ℚ → DVal
  | s : String → DVal
  | pairs : List (String × ℚ) → DVal
deriving DecidableEq, Repr

/-- A feature vector: one row of the feature matrix (`np.ndarray` row). -/
abbrev Vec := List ℚ

/-- A feature matrix: the list of its rows. -/
abbrev FMatrix := List Vec

/-- The fitted `IsolationForest` inside `AnomalyDetector`, abstracted to the
two pieces of behaviour the repository's code consumes: the per-vector raw
score `score_samples` and the contamination-implied `offset_`. -/
structure IsolationForestModel where
  score_samples : Vec → ℚ
  offset : ℚ

/-- `np.min` over a non-empty array of rationals (`0` on the empty array,
where NumPy would raise). -/
def listMin : List ℚ → ℚ
  | [] => 0
  | [x] => x
  | x :: y :: xs => min x (listMin (y :: xs))

/-- `np.max` over a non-empty array of rationals (`0` on the empty array,
where NumPy would raise). -/
def listMax : List ℚ → ℚ
  | [] => 0
  | [x] => x
  | x :: y :: xs => max x (listMax (y :: xs))

/-- The `1e-10` constant of `AnomalyDetector.predict_proba`. -/
def eps : ℚ := 1 / 10 ^ 10

/-- `AnomalyDetector.predict_proba`: raw isolation scores of the batch,
rescaled by `1 - (scores - scores.min()) / (scores.max() - scores.min() + 1e-10)`. -/
def predictProba (m : IsolationForestModel) (X : FMatrix) : List ℚ :=
  let scores := X.map m.score_samples
  scores.map (fun s => 1 - (s - listMin scores) / (listMax scores - listMin scores + eps))

/-- scikit-learn `IsolationForest.predict` on one vector: `-1` (anomaly)
exactly when the raw score is below the fitted offset, else `1`. -/
def ifTreePredict (m : IsolationForestModel) (x : Vec) : Int :=
  if m.score_samples x < m.offset then -1 else 1

/-- `AnomalyDetector.predict`: `np.where(isolation_forest.predict(X) == -1, 1, 0)`. -/
def detectorPredict (m : IsolationForestModel) (X : FMatrix) : List ℕ :=
  X.map (fun x => if ifTreePredict m x = -1 then 1 else 0)

/-- `AnomalyDetector._get_severity` (textually identical to
`EnsembleDetector._get_severity`): fixed breakpoints 0.95 / 0.85 / 0.70. -/
def getSeverity (score : ℚ) : String :=
  if score > 95 / 100 then "CRITICAL"
  else if score > 85 / 100 then "HIGH"
  else if score > 70 / 100 then "MEDIUM"
  else "LOW"

/-- Rank of a severity string under the ordering CRITICAL>HIGH>MEDIUM>LOW. -/
def severityRank : String → ℕ
  | "CRITICAL" => 3
  | "HIGH" => 2
  | "MEDIUM" => 1
  | _ => 0

/-- `AnomalyDetector.detect`: one result dictionary per input row, with keys
`is_anomaly`, `anomaly_score`, `severity`, `confidence` exactly as in the
source (`bool(predictions[i])`, `float(proba[i])`, `_get_severity(proba[i])`,
`float(abs(proba[i] - 0.5) * 2)`). -/
def detect (m : IsolationForestModel) (X : FMatrix) : List (List (String × DVal)) :=
  let proba := predictProba m X
  let preds := detectorPredict m X
  List.zipWith
    (fun p pr =>
      [("is_anomaly", DVal.b (pr ≠ 0)),
       ("anomaly_score", DVal.q p),
       ("severity", DVal.s (getSeverity p)),
       ("confidence", DVal.q (|p - 1/2| * 2))])
    proba preds

/-- The fitted `RandomForestClassifier` inside `SupervisedClassifier`,
abstracted to the per-vector probability of the positive class that
`predict_proba(X)[:, 1]` returns. -/
structure RFClassifierModel where
  proba : Vec → ℚ

/-- `EnsembleDetector`: the unsupervised forest plus, when `is_trained`,
the supervised classifier (`none` models `is_trained = False`). -/
structure EnsembleDetector where
  anomaly_detector : IsolationForestModel
  classifier : Option RFClassifierModel

/-- `EnsembleDetector.predict`: returns `(ensemble_pred, ensemble_proba)`.
When the classifier is trained, `ensemble_proba = (unsup + sup) / 2` and
`ensemble_pred = (ensemble_proba > 0.5)`; otherwise the pair is the
unsupervised scores and the unsupervised forest's own predictions. -/
def ensemblePredict (d : EnsembleDetector) (X : FMatrix) : List ℕ × List ℚ :=
  let unsupervised_scores := predictProba d.anomaly_detector X
  let unsupervised_pred := detectorPredict d.anomaly_detector X
  match d.classifier with
  | some c =>
      let supervised_proba := X.map c.proba
      let ensemble_proba :=
        List.zipWith (fun u s => (u + s) / 2) unsupervised_scores supervised_proba
      let ensemble_pred := ensemble_proba.map (fun p => if p > 1/2 then 1 else 0)
      (ensemble_pred, ensemble_proba)
  | none => (unsupervised_pred, unsupervised_scores)

/-- `EnsembleDetector._get_model_agreement`. -/
def getModelAgreement (d : EnsembleDetector) : String :=
  match d.classifier with
  | some _ => "ensemble"
  | none => "unsupervised_only"

/-- `EnsembleDetector.detect`: one result dictionary per input row, with keys
`is_anomaly`, `anomaly_score`, `severity`, `model_agreement` exactly as in
the source (note: no `confidence` key on this path). -/
def ensembleDetect (d : EnsembleDetector) (X : FMatrix) : List (List (String × DVal)) :=
  let pr := ensemblePredict d X
  List.zipWith
    (fun p pd =>
      [("is_anomaly", DVal.b (pd ≠ 0)),
       ("anomaly_score", DVal.q p),
       ("severity", DVal.s (getSeverity p)),
       ("model_agreement", DVal.s (getModelAgreement d))])
    pr.2 pr.1

/-- Errors the engine can raise.  The Python code raises `ValueError` with a
"not fitted" message for the not-fitted guards (the spec's `NotFittedError`
category), and the underlying library raises a generic `ValueError` for
invalid fit input. -/
inductive EngineError where
  | notFitted
  | valueError
deriving DecidableEq, Repr

/-- The state of an `AnomalyDetector` after a successful `fit`: the stored
feature names and the fitted forest, represented extensionally by its fit
input (the forest is a deterministic function of the fit data and the fixed
`random_state=42`). -/
structure FittedDetector where
  feature_names : List String
  fit_data : FMatrix
deriving DecidableEq, Repr

/-- `AnomalyDetector.fit`: stores the feature names and calls
`isolation_forest.fit(X)`.  The repository performs no row-count validation
of its own; scikit-learn's input validation inside `IsolationForest.fit`
raises `ValueError` on a matrix with 0 samples and accepts any matrix with
at least one row. -/
def fitDetector (X : FMatrix) (feature_names : List String) :
    Except EngineError FittedDetector :=
  if X.length = 0 then .error .valueError
  else .ok ⟨feature_names, X⟩

/-- A real-valued matrix, for the `StandardScaler`-based components. -/
abbrev RMatrix := List (List ℝ)

/-- Per-column state of a fitted `sklearn.preprocessing.StandardScaler`. -/
structure ScalerState where
  means : List ℝ
  scales : List ℝ

/-- Mean of one column (`np.mean`). -/
noncomputable def colMean (c : List ℝ) : ℝ := c.sum / c.length

/-- Population variance of one column (`np.var`, as used by `StandardScaler`). -/
noncomputable def colVar (c : List ℝ) : ℝ :=
  ((c.map (fun x => (x - colMean c) ^ 2)).sum) / c.length

/-- scikit-learn's `_handle_zeros_in_scale`: a zero standard deviation is
replaced by `1.0` so that constant columns pass through unscaled. -/
noncomputable def handleZerosInScale (s : ℝ) : ℝ := if s = 0 then 1 else s

/-- `StandardScaler.fit`, over the columns of the reference matrix:
per-column mean, and scale `_handle_zeros_in_scale(sqrt(var))`. -/
noncomputable def fitScaler (cols : List (List ℝ)) : ScalerState :=
  { means := cols.map colMean
    scales := cols.map (fun c => handleZerosInScale (Real.sqrt (colVar c))) }

/-- `StandardScaler.transform` on one row: `(x - mean) / scale` per column. -/
noncomputable def scaleRow (st : ScalerState) (row : List ℝ) : List ℝ :=
  List.zipWith (fun ms x => (x - ms.1) / ms.2) (st.means.zip st.scales) row

/-- `StandardScaler.transform` on a matrix given as a list of rows. -/
noncomputable def scalerTransform (st : ScalerState) (M : RMatrix) : RMatrix :=
  M.map (scaleRow st)

/-- The fitted state of `FeaturePipeline`: the `fitted` flag and the fitted
scaler.  Feature extraction (`extract_features`) uses no fitted state and is
passed as a function below. -/
structure PipelineState where
  fitted : Bool
  scaler : ScalerState

/-- `FeaturePipeline.transform`: raises when not fitted, returns the empty
array when extraction yields no feature columns, else applies the fitted
scaler.  `extract` stands for `extract_features` on the dataframe type `α`. -/
noncomputable def pipelineTransform {α : Type} (extract : α → RMatrix)
    (st : PipelineState) (df : α) : Except EngineError RMatrix :=
  if !st.fitted then .error .notFitted
  else if (extract df).isEmpty then .ok []
  else .ok (scalerTransform st.scaler (extract df))

/-- The fitted state of `DataPreprocessor`: the `is_fitted` flag, the data
preparation determined by the fitted label encoders and selected feature
names (`_handle_missing_values`, `_encode_categorical`, `_select_features`),
and the fitted scaler. -/
structure PreprocessorState (α : Type) where
  is_fitted : Bool
  prepare : α → RMatrix
  scaler : ScalerState

/-- `DataPreprocessor.transform`: raises when not fitted, else prepares the
dataframe with the fitted encoders and applies the fitted scaler. -/
noncomputable def preprocTransform {α : Type} (st : PreprocessorState α) (df : α) :
    Except EngineError RMatrix :=
  if !st.is_fitted then .error .notFitted
  else .ok (scalerTransform st.scaler (st.prepare df))

/-- The state of `SupervisedClassifier`: the `is_fitted` flag and the fitted
random forest (abstracted to its positive-class probability). -/
structure ClassifierState where
  is_fitted : Bool
  model : RFClassifierModel

/-- `SupervisedClassifier.predict_proba`: raises when not fitted, else
returns `model.predict_proba(X)[:, 1]`. -/
def clfPredictProba (st : ClassifierState) (X : FMatrix) :
    Except EngineError (List ℚ) :=
  if !st.is_fitted then .error .notFitted
  else .ok (X.map st.model.proba)

/-- Whether `pat` occurs as a contiguous substring of `s` (Python `in`). -/
def containsSub (s pat : String) : Bool :=
  (List.range (s.length + 1)).any
    (fun i => (s.toList.drop i).take pat.length = pat.toList)

/-- Python `f"{x:.2f}"` on a non-negative value, modelled as rounding the
exact rational to two decimal places (machine-float rounding at ties is not
modelled). -/
def fmt2 (x : ℚ) : String :=
  let n : ℤ := round (x * 100)
  let f := (n % 100).toNat
  toString (n / 100) ++ "." ++ (if f < 10 then "0" else "") ++ toString f

/-- The per-feature phrase of `AlertExplainer._generate_natural_language`:
vocabulary keyed by feature-name substrings. -/
def featurePhrase (feature : String) (value : ℚ) : String :=
  let dir := if value > 0 then "elevated" else "depressed"
  if containsSub feature.toLower "failure" || containsSub feature.toLower "error" then
    feature ++ " is " ++ dir ++ " (" ++ fmt2 |value| ++ " std)"
  else if containsSub feature.toLower "rate" || containsSub feature.toLower "count" then
    feature ++ " is " ++ dir
  else if containsSub feature.toLower "time" then
    "response " ++ dir
  else
    feature ++ ": " ++ dir

/-- `AlertExplainer._generate_natural_language`. -/
def generateNaturalLanguage (top_features : List (String × ℚ)) : String :=
  if top_features.isEmpty then "No significant features found."
  else
    let phrases := (top_features.take 3).map (fun fv => featurePhrase fv.1 fv.2)
    if phrases.length ≥ 2 then
      "This alert fired because: " ++ String.intercalate ", " (phrases.take 2)
    else
      match phrases with
      | [] => "Analysis inconclusive."
      | p :: _ => "This alert fired because: " ++ p

/-- Python `sorted(l, key=lambda x: abs(x[1]), reverse=True)`: a stable sort,
descending by absolute value. -/
def sortByAbsDesc (l : List (String × ℚ)) : List (String × ℚ) :=
  l.mergeSort (fun a b => decide (|b.2| ≤ |a.2|))

/-- `AlertExplainer._fallback_explain`: one record per row, keyed
`alert_id`, `feature_values`, `top_features`, `explanation` exactly as in
the source.  Python reads `X[i, j]` for `j < len(feature_names)` (an
`IndexError` when a row is shorter than `feature_names`); `List.zip` agrees
with it whenever each row has at least `feature_names.length` entries. -/
def fallbackExplain (X : FMatrix) (feature_names : List String) :
    List (List (String × DVal)) :=
  (List.range X.length).map (fun i =>
    let feature_values := List.zip feature_names (X.getD i [])
    let sorted_features := sortByAbsDesc feature_values
    [("alert_id", DVal.q i),
     ("feature_values", DVal.pairs feature_values),
     ("top_features", DVal.pairs (sorted_features.take 5)),
     ("explanation", DVal.s (generateNaturalLanguage (sorted_features.take 5)))])

/-- `shap.sample(X_train, min(100, n), random_state=42)`: with the seed
fixed this is a deterministic pure function of `X_train`; its bounded
subsample is modelled as the first `min(100, n)` rows (no claim below
depends on which rows are chosen). -/
def sampleBackground (X : FMatrix) : FMatrix := X.take 100

/-- The state `AlertExplainer.initialize` leaves behind.  The surrogate
`RandomForestClassifier` (seed 42) is represented extensionally by its fit
inputs: the training matrix and the dummy labels it was fit on. -/
structure ExplainerState where
  feature_names : List String
  X_train : FMatrix
  background : FMatrix
  surrogate_X : FMatrix
  surrogate_y : List ℕ
deriving DecidableEq

/-- `AlertExplainer.initialize` (with a caller-supplied model, so the
`model is None` branch is not taken).  The surrogate's dummy labels come
from `np.random.randint(0, 2, len(X_train))` — NumPy's *global, unseeded*
generator; that ambient generator draw is made explicit as the `y_dummy`
argument.  Everything else is seeded (`random_state=42`) and deterministic
in the inputs. -/
def initExplainer (X_train : FMatrix) (feature_names : List String)
    (y_dummy : List ℕ) : ExplainerState :=
  { feature_names := feature_names
    X_train := X_train
    background := sampleBackground X_train
    surrogate_X := X_train
    surrogate_y := y_dummy }

section Helpers

/-- `listMin` of a list is a lower bound for its members. -/
theorem listMin_le {l : List ℚ} {a : ℚ} (h : a ∈ l) : listMin l ≤ a := by
  induction l with
  | nil => cases h
  | cons x xs ih =>
    cases xs with
    | nil =>
      rcases List.mem_singleton.mp h with rfl
      simp [listMin]
    | cons y ys =>
      rcases List.mem_cons.mp h with rfl | hmem
      · simp [listMin]
      · exact le_trans (by simp [listMin]) (ih hmem)

/-- `listMax` of a list is an upper bound for its members. -/
theorem le_listMax {l : List ℚ} {a : ℚ} (h : a ∈ l) : a ≤ listMax l := by
  induction l with
  | nil => cases h
  | cons x xs ih =>
    cases xs with
    | nil =>
      rcases List.mem_singleton.mp h with rfl
      simp [listMax]
    | cons y ys =>
      rcases List.mem_cons.mp h with rfl | hmem
      · simp [listMax]
      · exact le_trans (ih hmem) (by simp [listMax])

/-- Each batch-rescaled score lies in `[0, 1]`. -/
theorem predictProba_mem_bounds {m : IsolationForestModel} {X : FMatrix} {p : ℚ}
    (hp : p ∈ predictProba m X) : 0 ≤ p ∧ p ≤ 1 := by
  unfold predictProba at hp
  rcases List.mem_map.mp hp with ⟨s, hs, rfl⟩
  have hlo : listMin (X.map m.score_samples) ≤ s := listMin_le hs
  have hhi : s ≤ listMax (X.map m.score_samples) := le_listMax hs
  have heps : (0 : ℚ) < eps := by norm_num [eps]
  have hden : (0 : ℚ) < listMax (X.map m.score_samples) - listMin (X.map m.score_samples) + eps := by
    linarith
  constructor
  · have hfrac : (s - listMin (X.map m.score_samples)) /
        (listMax (X.map m.score_samples) - listMin (X.map m.score_samples) + eps) < 1 := by
      rw [div_lt_one hden]
      linarith
    linarith
  · have hfrac : 0 ≤ (s - listMin (X.map m.score_samples)) /
        (listMax (X.map m.score_samples) - listMin (X.map m.score_samples) + eps) :=
      div_nonneg (by linarith) (le_of_lt hden)
    linarith

/-- `listMin` of a non-empty list is one of its members. -/
theorem listMin_mem : ∀ {l : List ℚ}, l ≠ [] → listMin l ∈ l := by
  intro l
  induction l with
  | nil => intro h; exact absurd rfl h
  | cons x xs ih =>
    intro _
    cases xs with
    | nil => simp [listMin]
    | cons y ys =>
      rw [listMin]
      rcases le_total x (listMin (y :: ys)) with h | h
      · simp [min_eq_left h]
      · rw [min_eq_right h]
        exact List.mem_cons_of_mem _ (ih (by simp))

/-- `listMax` of a non-empty list is one of its members. -/
theorem listMax_mem : ∀ {l : List ℚ}, l ≠ [] → listMax l ∈ l := by
  intro l
  induction l with
  | nil => intro h; exact absurd rfl h
  | cons x xs ih =>
    intro _
    cases xs with
    | nil => simp [listMax]
    | cons y ys =>
      rw [listMax]
      rcases le_total x (listMax (y :: ys)) with h | h
      · rw [max_eq_right h]
        exact List.mem_cons_of_mem _ (ih (by simp))
      · simp [max_eq_left h]

@[simp] theorem predictProba_length (m : IsolationForestModel) (X : FMatrix) :
    (predictProba m X).length = X.length := by
  unfold predictProba
  simp

@[simp] theorem detectorPredict_length (m : IsolationForestModel) (X : FMatrix) :
    (detectorPredict m X).length = X.length := by
  unfold detectorPredict
  simp

/-- `getD` of a `zipWith` at an in-bounds index. -/
theorem getD_zipWith {α β γ : Type} (f : α → β → γ) (da : α) (db : β) (dc : γ) :
    ∀ (as : List α) (bs : List β) (i : ℕ), i < as.length → i < bs.length →
      (List.zipWith f as bs).getD i dc = f (as.getD i da) (bs.getD i db) := by
  intro as
  induction as with
  | nil => intro bs i h _; simp at h
  | cons a as ih =>
    intro bs i h1 h2
    cases bs with
    | nil => simp at h2
    | cons b bs =>
      cases i with
      | zero => rfl
      | succ n =>
        simp only [List.zipWith_cons_cons, List.getD_cons_succ]
        exact ih bs n (by simpa using h1) (by simpa using h2)

/-- `getD` at an in-bounds index is a member. -/
theorem getD_mem_of_lt {α : Type} {l : List α} {i : ℕ} (d : α) (h : i < l.length) :
    l.getD i d ∈ l := by
  induction l generalizing i with
  | nil => simp at h
  | cons a as ih =>
    cases i with
    | zero => simp
    | succ n =>
      simp only [List.getD_cons_succ]
      exact List.mem_cons_of_mem _ (ih (by simpa using h))

/-- The confidence value `|p - 0.5| * 2` is in `[0, 1]` whenever `p` is. -/
theorem conf_bounds {p : ℚ} (h0 : 0 ≤ p) (h1 : p ≤ 1) :
    0 ≤ |p - 1/2| * 2 ∧ |p - 1/2| * 2 ≤ 1 := by
  constructor
  · positivity
  · have : |p - 1/2| ≤ 1/2 := abs_le.mpr ⟨by linarith, by linarith⟩
    linarith

end Helpers

/-! ## Claim theorems -/

/-- C1: for every fitted scorer and every non-empty batch, the per-vector
anomaly score equals the batch-relative min-max rescaling
`1 - (raw - min) / (max - min + 1e-10)` of the raw isolation scores, every
resulting score lies in `[0, 1]`, and a vector whose raw isolation score is
the batch minimum (the most anomalous) is assigned exactly `1`. -/
theorem score_minmax_rescaling_correct (m : IsolationForestModel) (X : FMatrix)
    (_hX : X ≠ []) :
    predictProba m X = X.map (fun v =>
        1 - (m.score_samples v - listMin (X.map m.score_samples)) /
            (listMax (X.map m.score_samples) - listMin (X.map m.score_samples) + eps)) ∧
    (∀ p ∈ predictProba m X, 0 ≤ p ∧ p ≤ 1) ∧
    (∀ v ∈ X, m.score_samples v = listMin (X.map m.score_samples) →
      1 - (m.score_samples v - listMin (X.map m.score_samples)) /
          (listMax (X.map m.score_samples) - listMin (X.map m.score_samples) + eps) = 1) := by
  refine ⟨?_, fun p hp => predictProba_mem_bounds hp, fun v hv hmin => ?_⟩
  · unfold predictProba
    simp [List.map_map, Function.comp]
  · rw [hmin]
    simp

/-- Witness for C1 at the concrete model `score_samples = head, offset = 0`
on the batch `[[0], [1]]`. -/
theorem score_minmax_rescaling_correct_witness :
    ([[(0:ℚ)], [1]] : FMatrix) ≠ [] ∧
    (0 ≤ (predictProba ⟨fun v => v.headD 0, 0⟩ [[(0:ℚ)], [1]]).getD 0 0 ∧
      (predictProba ⟨fun v => v.headD 0, 0⟩ [[(0:ℚ)], [1]]).getD 0 0 ≤ 1) :=
  ⟨by simp,
   (score_minmax_rescaling_correct ⟨fun v => v.headD 0, 0⟩ [[(0:ℚ)], [1]]
      (by simp)).2.1 _ (getD_mem_of_lt 0 (by simp))⟩

/-- C2: `_get_severity` realises exactly the fixed breakpoints
(`>0.95 → CRITICAL; >0.85 → HIGH; >0.70 → MEDIUM; else LOW`), and the induced
severity rank is monotone in the score. -/
theorem severity_breakpoints_and_monotone :
    (∀ s : ℚ,
      (getSeverity s = "CRITICAL" ↔ 95/100 < s) ∧
      (getSeverity s = "HIGH" ↔ 85/100 < s ∧ s ≤ 95/100) ∧
      (getSeverity s = "MEDIUM" ↔ 70/100 < s ∧ s ≤ 85/100) ∧
      (getSeverity s = "LOW" ↔ s ≤ 70/100)) ∧
    (∀ s1 s2 : ℚ, s2 < s1 →
      severityRank (getSeverity s2) ≤ severityRank (getSeverity s1)) := by
  constructor
  · intro s
    unfold getSeverity
    split_ifs with h1 h2 h3
    · exact ⟨iff_of_true rfl h1,
        iff_of_false (by decide) (fun h => absurd h.2 (not_le.mpr h1)),
        iff_of_false (by decide) (fun h => absurd h.2 (not_le.mpr (by linarith))),
        iff_of_false (by decide) (not_le.mpr (by linarith))⟩
    · push_neg at h1
      exact ⟨iff_of_false (by decide) (not_lt.mpr h1),
        iff_of_true rfl ⟨h2, h1⟩,
        iff_of_false (by decide) (fun h => absurd h.2 (not_le.mpr (by linarith))),
        iff_of_false (by decide) (not_le.mpr (by linarith))⟩
    · push_neg at h1 h2
      exact ⟨iff_of_false (by decide) (not_lt.mpr (by linarith)),
        iff_of_false (by decide) (fun h => absurd h.1 (not_lt.mpr h2)),
        iff_of_true rfl ⟨h3, h2⟩,
        iff_of_false (by decide) (not_le.mpr (by linarith))⟩
    · push_neg at h1 h2 h3
      exact ⟨iff_of_false (by decide) (not_lt.mpr (by linarith)),
        iff_of_false (by decide) (fun h => absurd h.1 (not_lt.mpr (by linarith))),
        iff_of_false (by decide) (fun h => absurd h.1 (not_lt.mpr h3)),
        iff_of_true rfl h3⟩
  · intro s1 s2 h
    unfold getSeverity
    split_ifs <;> first | decide | linarith

/-- Witness for C2 at concrete scores `1` and `1/2`. -/
theorem severity_breakpoints_and_monotone_witness :
    getSeverity 1 = "CRITICAL" ∧
    severityRank (getSeverity (1/2)) ≤ severityRank (getSeverity 1) :=
  ⟨((severity_breakpoints_and_monotone.1 1).1).mpr (by norm_num),
   severity_breakpoints_and_monotone.2 1 (1/2) (by norm_num)⟩

/-- C10: when every vector of a non-empty batch receives the same raw
isolation score, the batch-relative rescaling assigns anomaly score exactly
`1` to every vector, and `_get_severity` reports `CRITICAL` for each. -/
theorem constant_batch_scores_one (m : IsolationForestModel) (X : FMatrix) (c : ℚ)
    (hX : X ≠ []) (hconst : ∀ v ∈ X, m.score_samples v = c) :
    (∀ p ∈ predictProba m X, p = 1) ∧
    (∀ p ∈ predictProba m X, getSeverity p = "CRITICAL") := by
  have hscores : ∀ s ∈ X.map m.score_samples, s = c := by
    intro s hs
    rcases List.mem_map.mp hs with ⟨v, hv, rfl⟩
    exact hconst v hv
  have hne : X.map m.score_samples ≠ [] := by
    intro h
    exact hX (List.map_eq_nil_iff.mp h)
  have hlo : listMin (X.map m.score_samples) = c := hscores _ (listMin_mem hne)
  have hone : ∀ p ∈ predictProba m X, p = 1 := by
    intro p hp
    unfold predictProba at hp
    rcases List.mem_map.mp hp with ⟨s, hs, rfl⟩
    rw [hscores s hs, hlo]
    simp
  refine ⟨hone, fun p hp => ?_⟩
  rw [hone p hp]
  norm_num [getSeverity]

/-- Witness for C10 at the constant-raw-score model `fun _ => 3` on the
two-row batch `[[5], [6]]`. -/
theorem constant_batch_scores_one_witness :
    (predictProba ⟨fun _ => 3, 0⟩ [[(5:ℚ)], [6]]).getD 0 0 = 1 ∧
    getSeverity ((predictProba ⟨fun _ => 3, 0⟩ [[(5:ℚ)], [6]]).getD 0 0) = "CRITICAL" :=
  ⟨(constant_batch_scores_one ⟨fun _ => 3, 0⟩ [[(5:ℚ)], [6]] 3 (by simp)
      (fun v _ => rfl)).1 _ (getD_mem_of_lt 0 (by simp)),
   (constant_batch_scores_one ⟨fun _ => 3, 0⟩ [[(5:ℚ)], [6]] 3 (by simp)
      (fun v _ => rfl)).2 _ (getD_mem_of_lt 0 (by simp))⟩

/-- C3 counterexample: with the supervised classifier absent, the verdict is
the forest's own contamination-based prediction, not a `> 0.5` threshold of
the ensemble score.  Concretely, a fitted forest whose offset lies below all
raw batch scores (the typical situation on normal data) predicts "inlier"
for every vector, yet the batch-relative rescaling still assigns the lowest
raw score the ensemble score `1.0 > 0.5`. -/
theorem verdict_not_thresholded_counterexample :
    (ensemblePredict ⟨⟨fun v => v.headD 0, -1⟩, none⟩ [[(0:ℚ)], [1]]).1 ≠
      (ensemblePredict ⟨⟨fun v => v.headD 0, -1⟩, none⟩ [[(0:ℚ)], [1]]).2.map
        (fun p => if p > 1/2 then 1 else 0) := by
  intro h
  have h0 : (ensemblePredict ⟨⟨fun v => v.headD 0, -1⟩, none⟩ [[(0:ℚ)], [1]]).1 = [0, 0] := by
    simp [ensemblePredict, detectorPredict, ifTreePredict]
  have h1 : (ensemblePredict ⟨⟨fun v => v.headD 0, -1⟩, none⟩ [[(0:ℚ)], [1]]).2.map
      (fun p => if p > 1/2 then 1 else 0) = [1, 0] := by
    simp only [ensemblePredict, predictProba]
    norm_num [listMin, listMax, eps]
  rw [h0, h1] at h
  simp at h

/-- C3 (amended): `EnsembleDetector.predict` averages the unsupervised and
supervised scores and thresholds the average at `0.5` when the supervised
classifier is trained; otherwise the ensemble score is the unsupervised
score and the verdict is the unsupervised forest's own
contamination-offset-based prediction (not a `0.5` threshold). -/
theorem blend_and_verdict (m : IsolationForestModel) (c : RFClassifierModel)
    (X : FMatrix) :
    (ensemblePredict ⟨m, some c⟩ X).2 =
        List.zipWith (fun u s => (u + s) / 2) (predictProba m X) (X.map c.proba) ∧
    (ensemblePredict ⟨m, some c⟩ X).1 =
        (ensemblePredict ⟨m, some c⟩ X).2.map (fun p => if p > 1/2 then 1 else 0) ∧
    (ensemblePredict ⟨m, none⟩ X).2 = predictProba m X ∧
    (ensemblePredict ⟨m, none⟩ X).1 =
        X.map (fun v => if m.score_samples v < m.offset then 1 else 0) := by
  refine ⟨rfl, rfl, rfl, ?_⟩
  unfold ensemblePredict detectorPredict
  simp only
  apply List.map_congr_left
  intro v _
  by_cases h : m.score_samples v < m.offset <;> simp [ifTreePredict, h]

/-- C4 counterexample: the result records of `EnsembleDetector.detect` carry
no `confidence` field — their keys are `is_anomaly`, `anomaly_score`,
`severity`, `model_agreement`. -/
theorem ensemble_confidence_missing_counterexample :
    List.lookup "confidence"
      ((ensembleDetect ⟨⟨fun v => v.headD 0, 0⟩, none⟩ [[(0:ℚ)], [1]]).getD 0 []) = none ∧
    ((ensembleDetect ⟨⟨fun v => v.headD 0, 0⟩, none⟩ [[(0:ℚ)], [1]]).getD 0 []).map
        Prod.fst = ["is_anomaly", "anomaly_score", "severity", "model_agreement"] := by
  constructor <;>
    · rw [ensembleDetect,
        getD_zipWith _ 0 0 _ _ _ 0 (by simp [ensemblePredict]) (by simp [ensemblePredict])]
      simp [List.lookup]

/-- Lengths of the two components of `ensemblePredict`. -/
theorem ensemblePredict_lengths (d : EnsembleDetector) (X : FMatrix) :
    (ensemblePredict d X).1.length = X.length ∧
    (ensemblePredict d X).2.length = X.length := by
  cases hd : d.classifier <;>
    simp [ensemblePredict, hd, List.length_zipWith]

/-- C4 (amended): the unsupervised path's result records carry
`confidence = |anomaly_score - 0.5| * 2`, which lies in `[0, 1]`; the
ensemble path's result records carry no `confidence` field at all (they
carry `model_agreement` instead). -/
theorem confidence_field_location (m : IsolationForestModel) (d : EnsembleDetector)
    (X Y : FMatrix) (i j : ℕ) (hi : i < X.length) (hj : j < Y.length) :
    List.lookup "confidence" ((detect m X).getD i []) =
      some (DVal.q (|(predictProba m X).getD i 0 - 1/2| * 2)) ∧
    (0 ≤ |(predictProba m X).getD i 0 - 1/2| * 2 ∧
      |(predictProba m X).getD i 0 - 1/2| * 2 ≤ 1) ∧
    List.lookup "confidence" ((ensembleDetect d Y).getD j []) = none := by
  refine ⟨?_, ?_, ?_⟩
  · rw [detect, getD_zipWith _ 0 0 _ _ _ i (by simpa using hi) (by simpa using hi)]
    simp [List.lookup]
  · have hmem : (predictProba m X).getD i 0 ∈ predictProba m X :=
      getD_mem_of_lt 0 (by simpa using hi)
    have := predictProba_mem_bounds hmem
    exact conf_bounds this.1 this.2
  · rw [ensembleDetect,
      getD_zipWith _ 0 0 _ _ _ j (by simpa [(ensemblePredict_lengths d Y).2] using hj)
        (by simpa [(ensemblePredict_lengths d Y).1] using hj)]
    simp [List.lookup]

/-- Witness for C4 at a concrete model and the batch `[[0], [1]]`. -/
theorem confidence_field_location_witness :
    List.lookup "confidence"
        ((detect ⟨fun v => v.headD 0, 0⟩ [[(0:ℚ)], [1]]).getD 0 []) =
      some (DVal.q
        (|(predictProba ⟨fun v => v.headD 0, 0⟩ [[(0:ℚ)], [1]]).getD 0 0 - 1/2| * 2)) ∧
    (0 ≤ |(predictProba ⟨fun v => v.headD 0, 0⟩ [[(0:ℚ)], [1]]).getD 0 0 - 1/2| * 2 ∧
      |(predictProba ⟨fun v => v.headD 0, 0⟩ [[(0:ℚ)], [1]]).getD 0 0 - 1/2| * 2 ≤ 1) ∧
    List.lookup "confidence"
        ((ensembleDetect ⟨⟨fun v => v.headD 0, 0⟩, none⟩ [[(2:ℚ)], [3]]).getD 1 []) = none :=
  confidence_field_location ⟨fun v => v.headD 0, 0⟩ ⟨⟨fun v => v.headD 0, 0⟩, none⟩
    [[(0:ℚ)], [1]] [[(2:ℚ)], [3]] 0 1 (by simp) (by simp)

/-- C5: the not-fitted guards: `FeaturePipeline.transform`,
`DataPreprocessor.transform` and `SupervisedClassifier.predict_proba` all
fail with the not-fitted error, on every input, when the corresponding fit
has not happened — and, the result being an error, no partial result is
returned. -/
theorem not_fitted_guards {α β : Type} (extract : α → RMatrix) (st : PipelineState)
    (df : α) (pre : PreprocessorState β) (df2 : β) (cl : ClassifierState) (X : FMatrix)
    (h1 : st.fitted = false) (h2 : pre.is_fitted = false) (h3 : cl.is_fitted = false) :
    pipelineTransform extract st df = .error .notFitted ∧
    preprocTransform pre df2 = .error .notFitted ∧
    clfPredictProba cl X = .error .notFitted := by
  refine ⟨?_, ?_, ?_⟩ <;>
    simp [pipelineTransform, preprocTransform, clfPredictProba, h1, h2, h3]

/-- Witness for C5 at concrete unfitted states. -/
theorem not_fitted_guards_witness :
    pipelineTransform (fun _ : Unit => ([] : RMatrix)) ⟨false, ⟨[], []⟩⟩ () =
      .error .notFitted ∧
    preprocTransform (⟨false, fun _ : Unit => [], ⟨[], []⟩⟩ : PreprocessorState Unit) () =
      .error .notFitted ∧
    clfPredictProba ⟨false, ⟨fun _ => 0⟩⟩ [] = .error .notFitted :=
  not_fitted_guards (fun _ : Unit => ([] : RMatrix)) ⟨false, ⟨[], []⟩⟩ ()
    (⟨false, fun _ : Unit => [], ⟨[], []⟩⟩ : PreprocessorState Unit) ()
    ⟨false, ⟨fun _ => 0⟩⟩ [] rfl rfl rfl

/-- C6 counterexample: a single-row matrix has fewer than 2 rows, yet
`AnomalyDetector.fit` accepts it and returns a fitted detector (the code
performs no row-count validation and the library accepts one sample). -/
theorem single_row_fit_accepted_counterexample :
    fitDetector [[(1:ℚ), 2]] ["a", "b"] = .ok ⟨["a", "b"], [[1, 2]]⟩ ∧
    ([[(1:ℚ), 2]] : FMatrix).length < 2 := ⟨rfl, by simp⟩

/-- C6 (amended): `AnomalyDetector.fit` rejects exactly the empty matrix
(with the underlying library's generic `ValueError`, leaving no fitted state
behind); any matrix with at least one row — a single row included — is
accepted. -/
theorem fit_rejects_only_empty (X : FMatrix) (names : List String) :
    (X = [] → fitDetector X names = .error .valueError) ∧
    (X ≠ [] → fitDetector X names = .ok ⟨names, X⟩) := by
  constructor
  · rintro rfl
    rfl
  · intro h
    simp [fitDetector, List.length_eq_zero.not.mpr h]

/-- Witness for C6 on the empty and a one-row matrix. -/
theorem fit_rejects_only_empty_witness :
    fitDetector ([] : FMatrix) ["a"] = .error .valueError ∧
    fitDetector [[(1:ℚ), 2]] ["a"] = .ok ⟨["a"], [[1, 2]]⟩ :=
  ⟨(fit_rejects_only_empty [] ["a"]).1 rfl,
   (fit_rejects_only_empty [[(1:ℚ), 2]] ["a"]).2 (by simp)⟩

/-- The per-column variance is non-negative. -/
theorem colVar_nonneg (c : List ℝ) : 0 ≤ colVar c := by
  unfold colVar
  apply div_nonneg
  · apply List.sum_nonneg
    intro x hx
    rcases List.mem_map.mp hx with ⟨y, _, rfl⟩
    positivity
  · positivity

/-- C7 counterexample: on the constant column `[5, 5]` the fitted scale is
`1.0` (scikit-learn's `_handle_zeros_in_scale`), so transforming the value
`7` yields `(7 - 5) / 1 = 2` — not the `(7 - 5) / 1e-10 = 2e10` that a
substituted minimum standard deviation of `1e-10` would produce. -/
theorem scaler_unit_scale_counterexample :
    scalerTransform (fitScaler [[(5:ℝ), 5]]) [[7]] = [[2]] ∧
    ((7:ℝ) - 5) / (1 / 10 ^ 10) ≠ 2 := by
  constructor
  · have hmean : colMean [(5:ℝ), 5] = 5 := by
      norm_num [colMean]
    have hvar : colVar [(5:ℝ), 5] = 0 := by
      norm_num [colVar, hmean]
    norm_num [scalerTransform, fitScaler, scaleRow, hvar, handleZerosInScale,
      Real.sqrt_zero, hmean]
  · norm_num

/-- C7 (amended): the fitted scale of every column is `sqrt(var)` for
non-constant columns and `1.0` (not `1e-10`) for zero-variance columns; every
fitted scale is strictly positive, so `transform`'s per-entry
`(x - mean) / scale` never divides by zero. -/
theorem scaler_scale_characterization (cols : List (List ℝ)) :
    (fitScaler cols).scales =
      cols.map (fun c => if colVar c = 0 then 1 else Real.sqrt (colVar c)) ∧
    (∀ s ∈ (fitScaler cols).scales, 0 < s) := by
  have hfun : ∀ c : List ℝ,
      handleZerosInScale (Real.sqrt (colVar c)) =
        if colVar c = 0 then 1 else Real.sqrt (colVar c) := by
    intro c
    unfold handleZerosInScale
    by_cases h : colVar c = 0
    · simp [h, Real.sqrt_zero]
    · rw [if_neg h, if_neg]
      intro hs
      exact h (le_antisymm (Real.sqrt_eq_zero'.mp hs) (colVar_nonneg c))
  constructor
  · exact List.map_congr_left (fun c _ => hfun c)
  · intro s hs
    rcases List.mem_map.mp hs with ⟨c, _, rfl⟩
    rw [hfun c]
    by_cases h : colVar c = 0
    · simp [h]
    · rw [if_neg h]
      exact Real.sqrt_pos.mpr (lt_of_le_of_ne (colVar_nonneg c) (Ne.symm h))

/-- Witness for C7: the scale fitted on the constant column `[5, 5]` is
positive. -/
theorem scaler_scale_characterization_witness :
    0 < (fitScaler [[(5:ℝ), 5]]).scales.getD 0 0 :=
  (scaler_scale_characterization [[(5:ℝ), 5]]).2 _
    (getD_mem_of_lt 0 (by simp [fitScaler]))

/-- C8 counterexample: the fallback explanation record for a concrete input
has exactly the keys `alert_id`, `feature_values`, `top_features`,
`explanation`; no key is (or contains) a degradation label, so no
`AttributionDegraded` indicator is present on the output. -/
theorem fallback_no_degraded_label_counterexample :
    ((fallbackExplain [[(1:ℚ)]] ["a"]).getD 0 []).map Prod.fst =
      ["alert_id", "feature_values", "top_features", "explanation"] ∧
    (((fallbackExplain [[(1:ℚ)]] ["a"]).getD 0 []).map Prod.fst).all
      (fun k => !(containsSub k "degraded" || containsSub k "Degraded")) = true :=
  ⟨rfl, rfl⟩

/-- C8 (amended): `_fallback_explain` is total (one record per input row,
never raising) and every record it returns has exactly the keys `alert_id`,
`feature_values`, `top_features`, `explanation` — so the fallback is
distinguishable from the rigorous path only by the incidental
`feature_values`-instead-of-`shap_values` key, and no explicit
`AttributionDegraded` indicator is present. -/
theorem fallback_shape (X : FMatrix) (names : List String) :
    (fallbackExplain X names).length = X.length ∧
    ∀ r ∈ fallbackExplain X names,
      r.map Prod.fst = ["alert_id", "feature_values", "top_features", "explanation"] := by
  constructor
  · simp [fallbackExplain]
  · intro r hr
    unfold fallbackExplain at hr
    rcases List.mem_map.mp hr with ⟨i, _, rfl⟩
    rfl

/-- Witness for C8 at the one-row batch `[[1]]`. -/
theorem fallback_shape_witness :
    ((fallbackExplain [[(1:ℚ)]] ["b"]).getD 0 []).map Prod.fst =
      ["alert_id", "feature_values", "top_features", "explanation"] :=
  (fallback_shape [[(1:ℚ)]] ["b"]).2 _ (getD_mem_of_lt [] (by simp [fallbackExplain]))

/-- C9: `AlertExplainer.initialize` draws the surrogate's dummy labels from
NumPy's global, *unseeded* generator, so two runs on identical inputs can
leave different explainer states behind — here, the two states produced by
the ambient draws `[0, 0]` and `[1, 1]` on the same two-row training matrix
differ, and with them the fitted surrogate the explanations are computed
from.  Reproducibility of explanations for a fixed seed therefore fails. -/
theorem explainer_init_depends_on_global_rng :
    initExplainer [[(0:ℚ)], [1]] ["f"] [0, 0] ≠ initExplainer [[(0:ℚ)], [1]] ["f"] [1, 1] := by
  intro h
  have h2 := congrArg ExplainerState.surrogate_y h
  simp [initExplainer] at h2
